import Mathlib

/-!
Formal model of the traffic classification and windowed aggregation engine of
localPacketDump-rs (src/localPacketDump-rs/src/main.rs).

The shared mutable state of the program (the two DashMap byte windows, the
DashMap key set, the two prometheus IntGaugeVec families and the RwLock status
snapshot) is modelled as one record, TrafficMetrics; each operation of the
source becomes a pure state transformer.  DashMap entries are association
lists, gauge families are total functions Key → Int (prometheus children start
at 0), and u64 counter arithmetic wraps modulo 2 ^ 64.
-/

/-- Attribution key: (remote IP, interface label), the DashMap key type
(String, String) of the source. -/
abbrev Key := String × String

/-- Association-list lookup, modelling lookup in DashMap / HashMap (the
first entry with the key wins; the program never creates duplicate keys). -/
def assocLookup {α β : Type} [DecidableEq α] : List (α × β) → α → Option β
  | [], _ => none
  | (a, b) :: t, k => if a = k then some b else assocLookup t k

/-- Association-list lookup where the LAST entry with the key wins; used to
describe the effect of folding gauge updates over a list of entries. -/
def assocLookupLast {α β : Type} [DecidableEq α] : List (α × β) → α → Option β
  | [], _ => none
  | (a, b) :: t, k =>
    match assocLookupLast t k with
    | some v => some v
    | none => if a = k then some b else none

/-- Model of the DashMap upsert
entry(key).and_modify(|v| *v += bytes).or_insert(bytes) from record_packet:
add to the existing u64 counter (wrapping modulo 2 ^ 64) or insert the value. -/
def upsertAdd : List (Key × Nat) → Key → Nat → List (Key × Nat)
  | [], k, b => [(k, b)]
  | (a, v) :: t, k, b =>
    if a = k then (a, (v + b) % 2 ^ 64) :: t else (a, v) :: upsertAdd t k b

/-- Model of known_metrics.insert(key, ()): set-insert into the key set. -/
def insertKey : List Key → Key → List Key
  | [], k => [k]
  | a :: t, k => if a = k then a :: t else a :: insertKey t k

/-- Model of with_label_values(key).set(v) on an IntGaugeVec: point update of
the gauge family. -/
def setGauge (g : Key → Int) (k : Key) (v : Int) : Key → Int :=
  fun x => if x = k then v else g x

/-- The cast bytes as i64 applied by publish_bytes_and_reset to each u64
window counter before storing it in the gauge. -/
def i64ofU64 (b : Nat) : Int :=
  if b < 2 ^ 63 then (b : Int) else (b : Int) - 2 ^ 64

/-- StatusConfig of the source: the three interface labels of the status
document. -/
structure StatusConfig where
  lan : String
  wan0 : String
  wan1 : String
deriving DecidableEq

/-- StatusResponse of the source: config plus the HashMap<String, String>
mapping local IPs to "wan0" / "wan1", modelled as an association list. -/
structure StatusResponse where
  config : StatusConfig
  mappings : List (String × String)
deriving DecidableEq

/-- Model of ipnetwork::IpNetwork for the IPv4 case: a network address (as a
32-bit value) together with a prefix length.  All claims exercise IPv4
networks only; an IPv4 network never contains an IPv6 address, so frames whose
addresses are not IPv4 are classified remote either way. -/
structure IpNetwork where
  network : Nat
  prefixLen : Nat
deriving DecidableEq

/-- Containment test of ipnetwork: the address masked to the prefix length
equals the network address masked likewise. -/
def IpNetwork.containsIp (n : IpNetwork) (ip : Nat) : Bool :=
  ip / 2 ^ (32 - n.prefixLen) = n.network / 2 ^ (32 - n.prefixLen)

/-- Split a character list at every dot, keeping empty components. -/
def splitOnDot : List Char → List (List Char)
  | [] => [[]]
  | c :: t =>
    if c = '.' then [] :: splitOnDot t
    else
      match splitOnDot t with
      | h :: r => (c :: h) :: r
      | [] => [[c]]

/-- Accumulate a decimal value over a character list; none as soon as a
non-digit appears. -/
def parseDigits : Option Nat → List Char → Option Nat
  | acc, [] => acc
  | some n, c :: t =>
    if c.isDigit then parseDigits (some (n * 10 + (c.toNat - 48))) t else none
  | none, _ :: _ => none

/-- Decimal octet of a dotted-quad IPv4 literal: nonempty, digits only, value
at most 255 (the concrete addresses of the claims carry no leading zeros,
where Rust and this model could differ). -/
def parseOctet (l : List Char) : Option Nat :=
  match l with
  | [] => none
  | _ =>
    match parseDigits (some 0) l with
    | some n => if n ≤ 255 then some n else none
    | none => none

/-- Model of IpAddr::from_str restricted to IPv4 dotted-quad form, returning
the address as a 32-bit value.  Strings of any other shape (including IPv6
literals, which an IPv4-only local CIDR set never contains) parse to none. -/
def parseIpv4 (s : String) : Option Nat :=
  match (splitOnDot s.data).map parseOctet with
  | [some a, some b, some c, some d] => some (((a * 256 + b) * 256 + c) * 256 + d)
  | _ => none

/-- The shared state of TrafficMetrics (src lines 32-52): gauge families,
the two one-second byte windows, the set of every key ever seen, the
configured local CIDR ranges and the latest status snapshot. -/
structure TrafficMetrics where
  download_bytes_gauge : Key → Int
  upload_bytes_gauge : Key → Int
  window_download_bytes : List (Key × Nat)
  window_upload_bytes : List (Key × Nat)
  known_metrics : List Key
  local_cidrs : List IpNetwork
  status : Option StatusResponse

namespace TrafficMetrics

/-- fetch_status (src lines 117-135).  The network interaction is modelled by
the parameter: some status when the HTTP GET succeeded and the body parsed
into a StatusResponse, none on any failure (transport error, malformed body,
missing required fields, in which case serde rejects the document).  Only the
success path writes the RwLock. -/
def fetch_status (m : TrafficMetrics) (response : Option StatusResponse) :
    TrafficMetrics :=
  match response with
  | some status => { m with status := some status }
  | none => m

/-- get_interface_for_ip (src lines 137-154): resolve the WAN label for a
local IP from the current status snapshot.  The source matches the mapped
name against "wan0" and "wan1", falls through to the default return of
config.wan0 on any other name or an absent entry, and returns "unknown" when
no status has ever been loaded. -/
def get_interface_for_ip (m : TrafficMetrics) (local_ip : String) : String :=
  match m.status with
  | some status =>
    match assocLookup status.mappings local_ip with
    | some wan_name =>
      if wan_name = "wan0" then status.config.wan0
      else if wan_name = "wan1" then status.config.wan1
      else status.config.wan0
    | none => status.config.wan0
  | none => "unknown"

/-- is_local_ip (src lines 157-166): parse the address and test membership in
any configured local CIDR; unparseable addresses are not local. -/
def is_local_ip (m : TrafficMetrics) (ip_str : String) : Bool :=
  match parseIpv4 ip_str with
  | some ip => m.local_cidrs.any (fun network => network.containsIp ip)
  | none => false

/-- record_packet (src lines 171-199): classify by (source local?,
destination local?); remote → local is Download keyed by (src, interface of
dst); local → remote is Upload keyed by (dst, interface of src); both-local
and both-remote frames fall to the wildcard arm and change nothing. -/
def record_packet (m : TrafficMetrics) (src_ip dst_ip : String) (bytes : Nat) :
    TrafficMetrics :=
  let src_is_local := m.is_local_ip src_ip
  let dst_is_local := m.is_local_ip dst_ip
  match src_is_local, dst_is_local with
  | false, true =>
    let interface := m.get_interface_for_ip dst_ip
    let key := (src_ip, interface)
    { m with
      window_download_bytes := upsertAdd m.window_download_bytes key bytes
      known_metrics := insertKey m.known_metrics key }
  | true, false =>
    let interface := m.get_interface_for_ip src_ip
    let key := (dst_ip, interface)
    { m with
      window_upload_bytes := upsertAdd m.window_upload_bytes key bytes
      known_metrics := insertKey m.known_metrics key }
  | _, _ => m

/-- Fold of gauge updates over the entries of one window (the two iteration
loops of publish_bytes_and_reset, src lines 208-225). -/
def set_window_gauges (g : Key → Int) (l : List (Key × Nat)) : Key → Int :=
  l.foldl (fun g e => setGauge g e.1 (i64ofU64 e.2)) g

/-- One step of the zeroing loop of publish_bytes_and_reset (src lines
228-240): a known key absent from the current download (resp. upload) keys
has its download (resp. upload) gauge set to 0. -/
def zeroSilent (curD curU : List Key) (p : (Key → Int) × (Key → Int))
    (k : Key) : (Key → Int) × (Key → Int) :=
  (if k ∈ curD then p.1 else setGauge p.1 k 0,
   if k ∈ curU then p.2 else setGauge p.2 k 0)

/-- First half of publish_bytes_and_reset (src lines 202-240): iterate both
windows setting each gauge to the window value cast to i64, collect the keys
current in each window, then set both gauges of every known key silent in the
respective window to 0. -/
def publish_read (m : TrafficMetrics) : TrafficMetrics :=
  let current_download_keys := m.window_download_bytes.map Prod.fst
  let current_upload_keys := m.window_upload_bytes.map Prod.fst
  let dg := set_window_gauges m.download_bytes_gauge m.window_download_bytes
  let ug := set_window_gauges m.upload_bytes_gauge m.window_upload_bytes
  let gauges := m.known_metrics.foldl
    (zeroSilent current_download_keys current_upload_keys) (dg, ug)
  { m with download_bytes_gauge := gauges.1, upload_bytes_gauge := gauges.2 }

/-- Second half of publish_bytes_and_reset (src lines 242-244): clear both
windows. -/
def publish_clear (m : TrafficMetrics) : TrafficMetrics :=
  { m with window_download_bytes := [], window_upload_bytes := [] }

/-- publish_bytes_and_reset (src lines 202-245): publish the window values to
the gauges, zero the silent known keys, then reset the windows.  The source
performs the read part and the clear part as separate traversals of the
shared maps, with no lock covering both; publish_read and publish_clear name
the two parts so that interleavings with record_packet can be stated. -/
def publish_bytes_and_reset (m : TrafficMetrics) : TrafficMetrics :=
  publish_clear (publish_read m)

/-- The window entries the publisher captures and reports at a tick: exactly
the contents of the two windows it iterates. -/
def captured_window (m : TrafficMetrics) : List (Key × Nat) × List (Key × Nat) :=
  (m.window_download_bytes, m.window_upload_bytes)

end TrafficMetrics

/-- Concrete local network 10.0.0.0/24, the range of the worked example in
the spec. -/
def sampleNet : IpNetwork := { network := 167772160, prefixLen := 24 }

/-- Concrete status config with distinct labels for the three interfaces. -/
def sampleConfig : StatusConfig := { lan := "br-lan", wan0 := "eth1", wan1 := "eth2" }

/-- Concrete status document: 10.0.0.5 maps to wan1, 10.0.0.7 carries an
unrecognized interface name. -/
def sampleStatus : StatusResponse :=
  { config := sampleConfig
    mappings := [("10.0.0.5", "wan1"), ("10.0.0.7", "wan2")] }

/-- Concrete metrics state: local range 10.0.0.0/24, empty windows, no
status loaded yet. -/
def sample0 : TrafficMetrics :=
  { download_bytes_gauge := fun _ => 0
    upload_bytes_gauge := fun _ => 0
    window_download_bytes := []
    window_upload_bytes := []
    known_metrics := []
    local_cidrs := [sampleNet]
    status := none }

/-- The same state with the sample status loaded. -/
def sample1 : TrafficMetrics := { sample0 with status := some sampleStatus }

/-- One atomic step of an interleaving of the capture task with the publisher
task: a captured frame processed by record_packet, the read half of a publish
tick, or the clear half.  The two halves are separate steps because the
source holds no lock across them; any behaviour of this coarse model is a
behaviour of the program. -/
inductive TraceOp where
  | frame (src dst : String) (bytes : Nat)
  | pubRead
  | pubClear
deriving DecidableEq

/-- State of an interleaving run: the shared metrics state plus the list of
window snapshots the publisher has reported so far, one per read step. -/
structure TraceState where
  tm : TrafficMetrics
  reports : List (List (Key × Nat) × List (Key × Nat))

/-- Apply one interleaving step. -/
def stepOp (ts : TraceState) : TraceOp → TraceState
  | TraceOp.frame s d b => { ts with tm := ts.tm.record_packet s d b }
  | TraceOp.pubRead =>
    { tm := ts.tm.publish_read, reports := ts.reports ++ [ts.tm.captured_window] }
  | TraceOp.pubClear => { ts with tm := ts.tm.publish_clear }

/-- Run a whole interleaving. -/
def runTrace (ts : TraceState) (ops : List TraceOp) : TraceState :=
  ops.foldl stepOp ts

/-- Total download bytes reported for a key, summed across every window the
publisher reported during the trace. -/
def reportedDownload (ts : TraceState) (k : Key) : Nat :=
  ts.reports.foldl (fun a r => a + (assocLookup r.1 k).getD 0) 0

/-- Interleaving in which a frame of 50 bytes is recorded after the publisher
has read the windows of the first tick but before it clears them; the second
tick then reads the already-cleared windows. -/
def lostTrace : List TraceOp :=
  [TraceOp.frame "93.184.216.34" "10.0.0.5" 100, TraceOp.pubRead,
   TraceOp.frame "93.184.216.34" "10.0.0.5" 50, TraceOp.pubClear,
   TraceOp.pubRead, TraceOp.pubClear]

/-- State sample0 after one recorded download frame: the key
(93.184.216.34, unknown) is in known_metrics and in the download window. -/
def sample2 : TrafficMetrics :=
  sample0.record_packet "93.184.216.34" "10.0.0.5" 100

/-! Helper lemmas about the map and fold primitives. -/

theorem assocLookup_eq_none_iff {α β : Type} [DecidableEq α]
    (l : List (α × β)) (k : α) :
    assocLookup l k = none ↔ k ∉ l.map Prod.fst := by
  induction l with
  | nil => simp [assocLookup]
  | cons e t ih =>
    obtain ⟨a, b⟩ := e
    by_cases h : a = k <;> simp [assocLookup, h, ih, Ne.symm]

theorem assocLookup_append {α β : Type} [DecidableEq α]
    (l1 l2 : List (α × β)) (k : α) (h : assocLookup l1 k = none) :
    assocLookup (l1 ++ l2) k = assocLookup l2 k := by
  induction l1 with
  | nil => simp
  | cons e t ih =>
    obtain ⟨a, b⟩ := e
    by_cases hak : a = k
    · simp [assocLookup, hak] at h
    · simp only [assocLookup, hak, if_false, List.cons_append] at h ⊢
      exact ih h

theorem upsertAdd_of_notMem (m : List (Key × Nat)) (k : Key) (b : Nat)
    (h : assocLookup m k = none) : upsertAdd m k b = m ++ [(k, b)] := by
  induction m with
  | nil => rfl
  | cons e t ih =>
    obtain ⟨a, v⟩ := e
    by_cases hak : a = k
    · simp [assocLookup, hak] at h
    · simp only [assocLookup, hak, if_false] at h
      simp [upsertAdd, hak, ih h]

theorem upsertAdd_append (m : List (Key × Nat)) (k : Key) (v b : Nat)
    (h : assocLookup m k = none) :
    upsertAdd (m ++ [(k, v)]) k b = m ++ [(k, (v + b) % 2 ^ 64)] := by
  induction m with
  | nil => simp [upsertAdd]
  | cons e t ih =>
    obtain ⟨a, w⟩ := e
    by_cases hak : a = k
    · simp [assocLookup, hak] at h
    · simp only [assocLookup, hak, if_false] at h
      simp [upsertAdd, hak, ih h]

theorem assocLookupLast_append_last {α β : Type} [DecidableEq α]
    (m : List (α × β)) (k : α) (v : β) :
    assocLookupLast (m ++ [(k, v)]) k = some v := by
  induction m with
  | nil => simp [assocLookupLast]
  | cons e t ih =>
    obtain ⟨a, b⟩ := e
    simp [assocLookupLast, ih]

theorem assocLookupLast_eq_none {α β : Type} [DecidableEq α]
    (m : List (α × β)) (k : α) (h : assocLookup m k = none) :
    assocLookupLast m k = none := by
  induction m with
  | nil => rfl
  | cons e t ih =>
    obtain ⟨a, b⟩ := e
    by_cases hak : a = k
    · simp [assocLookup, hak] at h
    · simp only [assocLookup, hak, if_false] at h
      simp [assocLookupLast, ih h, hak]

theorem mem_insertKey_self (l : List Key) (k : Key) : k ∈ insertKey l k := by
  induction l with
  | nil => simp [insertKey]
  | cons a t ih =>
    by_cases h : a = k <;> simp [insertKey, h, ih]

theorem mem_insertKey_of_mem (l : List Key) (k x : Key) (h : x ∈ l) :
    x ∈ insertKey l k := by
  induction l with
  | nil => cases h
  | cons a t ih =>
    unfold insertKey
    by_cases hak : a = k
    · simpa [hak] using h
    · rw [if_neg hak]
      rcases List.mem_cons.mp h with rfl | hx
      · exact List.mem_cons_self _ _
      · exact List.mem_cons_of_mem _ (ih hx)

namespace TrafficMetrics

theorem set_window_gauges_eq (g : Key → Int) (l : List (Key × Nat)) (k : Key) :
    set_window_gauges g l k =
      match assocLookupLast l k with
      | some v => i64ofU64 v
      | none => g k := by
  induction l generalizing g with
  | nil => rfl
  | cons e t ih =>
    obtain ⟨a, v⟩ := e
    show set_window_gauges (setGauge g a (i64ofU64 v)) t k = _
    rw [ih]
    rcases hlast : assocLookupLast t k with _ | w
    · by_cases hak : a = k
      · subst hak
        simp [assocLookupLast, hlast, setGauge]
      · have hka : ¬k = a := fun h => hak h.symm
        simp [assocLookupLast, hlast, setGauge, hak, hka]
    · simp [assocLookupLast, hlast]

theorem zeroSilent_foldl_fst_preserve (curD curU : List Key) (l : List Key)
    (p : (Key → Int) × (Key → Int)) (k : Key) (h : p.1 k = 0) :
    (l.foldl (zeroSilent curD curU) p).1 k = 0 := by
  induction l generalizing p with
  | nil => exact h
  | cons a t ih =>
    refine ih _ ?_
    show (zeroSilent curD curU p a).1 k = 0
    unfold zeroSilent
    by_cases ha : a ∈ curD
    · simpa [ha]
    · by_cases hka : k = a <;> simp [ha, setGauge, hka, h]

theorem zeroSilent_foldl_snd_preserve (curD curU : List Key) (l : List Key)
    (p : (Key → Int) × (Key → Int)) (k : Key) (h : p.2 k = 0) :
    (l.foldl (zeroSilent curD curU) p).2 k = 0 := by
  induction l generalizing p with
  | nil => exact h
  | cons a t ih =>
    refine ih _ ?_
    show (zeroSilent curD curU p a).2 k = 0
    unfold zeroSilent
    by_cases ha : a ∈ curU
    · simpa [ha]
    · by_cases hka : k = a <;> simp [ha, setGauge, hka, h]

theorem zeroSilent_foldl_fst_zero (curD curU : List Key) (l : List Key)
    (p : (Key → Int) × (Key → Int)) (k : Key) (hk : k ∈ l) (hd : k ∉ curD) :
    (l.foldl (zeroSilent curD curU) p).1 k = 0 := by
  induction l generalizing p with
  | nil => cases hk
  | cons a t ih =>
    rcases List.mem_cons.mp hk with rfl | hkt
    · by_cases hkt : k ∈ t
      · exact ih _ hkt
      · refine zeroSilent_foldl_fst_preserve curD curU t _ k ?_
        show (zeroSilent curD curU p k).1 k = 0
        unfold zeroSilent
        simp [hd, setGauge]
    · exact ih _ hkt

theorem zeroSilent_foldl_snd_zero (curD curU : List Key) (l : List Key)
    (p : (Key → Int) × (Key → Int)) (k : Key) (hk : k ∈ l) (hu : k ∉ curU) :
    (l.foldl (zeroSilent curD curU) p).2 k = 0 := by
  induction l generalizing p with
  | nil => cases hk
  | cons a t ih =>
    rcases List.mem_cons.mp hk with rfl | hkt
    · by_cases hkt : k ∈ t
      · exact ih _ hkt
      · refine zeroSilent_foldl_snd_preserve curD curU t _ k ?_
        show (zeroSilent curD curU p k).2 k = 0
        unfold zeroSilent
        simp [hu, setGauge]
    · exact ih _ hkt

theorem zeroSilent_foldl_fst_mem (curD curU : List Key) (l : List Key)
    (p : (Key → Int) × (Key → Int)) (k : Key) (hd : k ∈ curD) :
    (l.foldl (zeroSilent curD curU) p).1 k = p.1 k := by
  induction l generalizing p with
  | nil => rfl
  | cons a t ih =>
    rw [List.foldl_cons, ih]
    show (zeroSilent curD curU p a).1 k = p.1 k
    unfold zeroSilent
    by_cases ha : a ∈ curD
    · simp [ha]
    · have hka : k ≠ a := fun h => ha (h ▸ hd)
      simp [ha, setGauge, hka]

theorem zeroSilent_foldl_snd_mem (curD curU : List Key) (l : List Key)
    (p : (Key → Int) × (Key → Int)) (k : Key) (hu : k ∈ curU) :
    (l.foldl (zeroSilent curD curU) p).2 k = p.2 k := by
  induction l generalizing p with
  | nil => rfl
  | cons a t ih =>
    rw [List.foldl_cons, ih]
    show (zeroSilent curD curU p a).2 k = p.2 k
    unfold zeroSilent
    by_cases ha : a ∈ curU
    · simp [ha]
    · have hka : k ≠ a := fun h => ha (h ▸ hu)
      simp [ha, setGauge, hka]

end TrafficMetrics

namespace TrafficMetrics

theorem record_packet_download (m : TrafficMetrics) (s d : String) (b : Nat)
    (hs : m.is_local_ip s = false) (hd : m.is_local_ip d = true) :
    m.record_packet s d b =
      { m with
        window_download_bytes :=
          upsertAdd m.window_download_bytes (s, m.get_interface_for_ip d) b
        known_metrics :=
          insertKey m.known_metrics (s, m.get_interface_for_ip d) } := by
  simp only [record_packet, hs, hd]

theorem record_packet_upload (m : TrafficMetrics) (s d : String) (b : Nat)
    (hs : m.is_local_ip s = true) (hd : m.is_local_ip d = false) :
    m.record_packet s d b =
      { m with
        window_upload_bytes :=
          upsertAdd m.window_upload_bytes (d, m.get_interface_for_ip s) b
        known_metrics :=
          insertKey m.known_metrics (d, m.get_interface_for_ip s) } := by
  simp only [record_packet, hs, hd]

theorem record_packet_skip (m : TrafficMetrics) (s d : String) (b : Nat)
    (h : m.is_local_ip s = m.is_local_ip d) :
    m.record_packet s d b = m := by
  rcases hsv : m.is_local_ip s with _ | _ <;>
    rcases hdv : m.is_local_ip d with _ | _ <;>
      simp only [record_packet, hsv, hdv] <;>
        first
          | rfl
          | (rw [hsv, hdv] at h; cases h)

theorem record_packet_local_cidrs (m : TrafficMetrics) (s d : String) (b : Nat) :
    (m.record_packet s d b).local_cidrs = m.local_cidrs := by
  rcases hsv : m.is_local_ip s with _ | _ <;>
    rcases hdv : m.is_local_ip d with _ | _ <;>
      simp only [record_packet, hsv, hdv]

theorem record_packet_status (m : TrafficMetrics) (s d : String) (b : Nat) :
    (m.record_packet s d b).status = m.status := by
  rcases hsv : m.is_local_ip s with _ | _ <;>
    rcases hdv : m.is_local_ip d with _ | _ <;>
      simp only [record_packet, hsv, hdv]

theorem is_local_ip_record (m : TrafficMetrics) (s d : String) (b : Nat)
    (x : String) :
    (m.record_packet s d b).is_local_ip x = m.is_local_ip x := by
  unfold is_local_ip
  rw [record_packet_local_cidrs]

theorem get_interface_for_ip_record (m : TrafficMetrics) (s d : String)
    (b : Nat) (x : String) :
    (m.record_packet s d b).get_interface_for_ip x = m.get_interface_for_ip x := by
  unfold get_interface_for_ip
  rw [record_packet_status]

theorem record_packet_known_mono (m : TrafficMetrics) (s d : String) (b : Nat)
    (x : Key) (h : x ∈ m.known_metrics) :
    x ∈ (m.record_packet s d b).known_metrics := by
  rcases hsv : m.is_local_ip s with _ | _ <;>
    rcases hdv : m.is_local_ip d with _ | _
  · rw [record_packet_skip m s d b (by rw [hsv, hdv])]; exact h
  · rw [record_packet_download m s d b hsv hdv]
    exact mem_insertKey_of_mem _ _ _ h
  · rw [record_packet_upload m s d b hsv hdv]
    exact mem_insertKey_of_mem _ _ _ h
  · rw [record_packet_skip m s d b (by rw [hsv, hdv])]; exact h

theorem publish_gauges_eq (m : TrafficMetrics) :
    (m.publish_bytes_and_reset).download_bytes_gauge =
      (m.known_metrics.foldl
        (zeroSilent (m.window_download_bytes.map Prod.fst)
          (m.window_upload_bytes.map Prod.fst))
        (set_window_gauges m.download_bytes_gauge m.window_download_bytes,
         set_window_gauges m.upload_bytes_gauge m.window_upload_bytes)).1 ∧
    (m.publish_bytes_and_reset).upload_bytes_gauge =
      (m.known_metrics.foldl
        (zeroSilent (m.window_download_bytes.map Prod.fst)
          (m.window_upload_bytes.map Prod.fst))
        (set_window_gauges m.download_bytes_gauge m.window_download_bytes,
         set_window_gauges m.upload_bytes_gauge m.window_upload_bytes)).2 :=
  ⟨rfl, rfl⟩

theorem publish_status (m : TrafficMetrics) :
    (m.publish_bytes_and_reset).status = m.status := rfl

theorem publish_local_cidrs (m : TrafficMetrics) :
    (m.publish_bytes_and_reset).local_cidrs = m.local_cidrs := rfl

theorem publish_known (m : TrafficMetrics) :
    (m.publish_bytes_and_reset).known_metrics = m.known_metrics := rfl

theorem publish_windows (m : TrafficMetrics) :
    (m.publish_bytes_and_reset).window_download_bytes = [] ∧
    (m.publish_bytes_and_reset).window_upload_bytes = [] :=
  ⟨rfl, rfl⟩

theorem is_local_ip_publish (m : TrafficMetrics) (x : String) :
    (m.publish_bytes_and_reset).is_local_ip x = m.is_local_ip x := by
  unfold is_local_ip
  rw [publish_local_cidrs]

theorem get_interface_for_ip_publish (m : TrafficMetrics) (x : String) :
    (m.publish_bytes_and_reset).get_interface_for_ip x = m.get_interface_for_ip x := by
  unfold get_interface_for_ip
  rw [publish_status]

end TrafficMetrics

open TrafficMetrics

/-- C2: a frame with a local source and a remote destination is recorded as
Upload keyed by (destination, interface of the source); a frame with a remote
source and a local destination is recorded as Download keyed by (source,
interface of the destination); in each case the opposite window is untouched
and the key joins known_metrics. -/
theorem record_packet_direction (m : TrafficMetrics) (s d : String) (b : Nat) :
    (m.is_local_ip s = true → m.is_local_ip d = false →
      (m.record_packet s d b).window_upload_bytes =
          upsertAdd m.window_upload_bytes (d, m.get_interface_for_ip s) b ∧
        (m.record_packet s d b).window_download_bytes = m.window_download_bytes ∧
        (m.record_packet s d b).known_metrics =
          insertKey m.known_metrics (d, m.get_interface_for_ip s)) ∧
    (m.is_local_ip s = false → m.is_local_ip d = true →
      (m.record_packet s d b).window_download_bytes =
          upsertAdd m.window_download_bytes (s, m.get_interface_for_ip d) b ∧
        (m.record_packet s d b).window_upload_bytes = m.window_upload_bytes ∧
        (m.record_packet s d b).known_metrics =
          insertKey m.known_metrics (s, m.get_interface_for_ip d)) := by
  constructor
  · intro hs hd
    rw [record_packet_upload m s d b hs hd]
    exact ⟨rfl, rfl, rfl⟩
  · intro hs hd
    rw [record_packet_download m s d b hs hd]
    exact ⟨rfl, rfl, rfl⟩

/-- Witness for C2 at the worked example of the spec: local range
10.0.0.0/24, source 10.0.0.5, destination 93.184.216.34, length 150 lands in
the upload window under key (93.184.216.34, interface of 10.0.0.5). -/
theorem record_packet_direction_witness :
    sample0.is_local_ip "10.0.0.5" = true ∧
    sample0.is_local_ip "93.184.216.34" = false ∧
    (sample0.record_packet "10.0.0.5" "93.184.216.34" 150).window_upload_bytes =
      [(("93.184.216.34", sample0.get_interface_for_ip "10.0.0.5"), 150)] := by
  refine ⟨by decide, by decide, ?_⟩
  have h := (record_packet_direction sample0 "10.0.0.5" "93.184.216.34" 150).1
    (by decide) (by decide)
  rw [h.1]
  decide

/-- C3: with a loaded status, get_interface_for_ip returns the wan1 label for
an address mapped to "wan1" and the wan0 label for an address mapped to
"wan0" or absent from the table; with no status ever loaded it returns the
sentinel "unknown".  The modelled function is total, so it neither blocks nor
fails. -/
theorem get_interface_for_ip_spec (m : TrafficMetrics) (ip : String) :
    (∀ st : StatusResponse, m.status = some st →
      (assocLookup st.mappings ip = some "wan1" →
        m.get_interface_for_ip ip = st.config.wan1) ∧
      (assocLookup st.mappings ip = some "wan0" ∨ assocLookup st.mappings ip = none →
        m.get_interface_for_ip ip = st.config.wan0)) ∧
    (m.status = none → m.get_interface_for_ip ip = "unknown") := by
  constructor
  · intro st hst
    constructor
    · intro hl
      simp [get_interface_for_ip, hst, hl]
    · rintro (hl | hl) <;> simp [get_interface_for_ip, hst, hl]
  · intro hst
    simp [get_interface_for_ip, hst]

/-- Witness for C3: in sample1 the address 10.0.0.5 is mapped to "wan1" and
resolves to the wan1 label, and in sample0 (no status) resolution yields
"unknown". -/
theorem get_interface_for_ip_spec_witness :
    sample1.status = some sampleStatus ∧
    assocLookup sampleStatus.mappings "10.0.0.5" = some "wan1" ∧
    sample1.get_interface_for_ip "10.0.0.5" = sampleStatus.config.wan1 ∧
    sample0.get_interface_for_ip "10.0.0.5" = "unknown" := by
  refine ⟨rfl, by decide, ?_, ?_⟩
  · exact ((get_interface_for_ip_spec sample1 "10.0.0.5").1 sampleStatus rfl).1 (by decide)
  · exact (get_interface_for_ip_spec sample0 "10.0.0.5").2 rfl

/-- C10: an address mapped to an interface name other than "wan0" and "wan1"
falls through the match silently and resolves to the wan0 label, the same
result as an address absent from the mapping. -/
theorem get_interface_unrecognized_fallback (m : TrafficMetrics)
    (st : StatusResponse) (ip w : String) (hst : m.status = some st)
    (hl : assocLookup st.mappings ip = some w) (h0 : w ≠ "wan0")
    (h1 : w ≠ "wan1") :
    m.get_interface_for_ip ip = st.config.wan0 := by
  simp [get_interface_for_ip, hst, hl, h0, h1]

/-- Witness for C10: in sample1 the address 10.0.0.7 is mapped to the
unrecognized name "wan2" and resolves to the wan0 label. -/
theorem get_interface_unrecognized_fallback_witness :
    assocLookup sampleStatus.mappings "10.0.0.7" = some "wan2" ∧
    sample1.get_interface_for_ip "10.0.0.7" = sampleStatus.config.wan0 :=
  ⟨by decide,
   get_interface_unrecognized_fallback sample1 sampleStatus "10.0.0.7" "wan2" rfl
     (by decide) (by decide) (by decide)⟩

/-- C9: a frame whose source and destination are both local or both remote
leaves the whole state unchanged. -/
theorem record_packet_ignored (m : TrafficMetrics) (s d : String) (b : Nat)
    (h : (m.is_local_ip s = true ∧ m.is_local_ip d = true) ∨
         (m.is_local_ip s = false ∧ m.is_local_ip d = false)) :
    m.record_packet s d b = m := by
  rcases h with ⟨hs, hd⟩ | ⟨hs, hd⟩ <;>
    exact record_packet_skip m s d b (by rw [hs, hd])

/-- Witness for C9: a frame between the two local addresses 10.0.0.5 and
10.0.0.6 changes nothing. -/
theorem record_packet_ignored_witness :
    sample0.is_local_ip "10.0.0.5" = true ∧
    sample0.is_local_ip "10.0.0.6" = true ∧
    sample0.record_packet "10.0.0.5" "10.0.0.6" 400 = sample0 :=
  ⟨by decide, by decide,
   record_packet_ignored sample0 "10.0.0.5" "10.0.0.6" 400
     (Or.inl ⟨by decide, by decide⟩)⟩

/-- C8: a failed status fetch leaves the state, and hence every
get_interface_for_ip result, exactly as before the attempt. -/
theorem fetch_status_failure_preserves (m : TrafficMetrics) (ip : String) :
    m.fetch_status none = m ∧
    (m.fetch_status none).get_interface_for_ip ip = m.get_interface_for_ip ip :=
  ⟨rfl, rfl⟩

/-- C6: every call of publish_bytes_and_reset after the first, with no
intervening record_packet, captures empty windows. -/
theorem snapshot_idempotent_on_empty (m : TrafficMetrics) (n : Nat) :
    captured_window (publish_bytes_and_reset^[n + 1] m) = ([], []) := by
  rw [Function.iterate_succ_apply']
  rfl

/-- C4: two frames recorded in the same window and attributed to the same key
and direction leave the counter at the exact sum of their lengths, and the
next publish reports that sum in the gauge, for the download direction and
for the upload direction alike.  The bound keeps the sum inside the i64 range
of the gauge. -/
theorem same_window_sum (m : TrafficMetrics) (r l1 l2 : String) (b1 b2 : Nat)
    (hr : m.is_local_ip r = false)
    (h1 : m.is_local_ip l1 = true) (h2 : m.is_local_ip l2 = true)
    (hif : m.get_interface_for_ip l1 = m.get_interface_for_ip l2)
    (hdn : assocLookup m.window_download_bytes (r, m.get_interface_for_ip l1) = none)
    (hun : assocLookup m.window_upload_bytes (r, m.get_interface_for_ip l1) = none)
    (hlt : b1 + b2 < 2 ^ 63) :
    (assocLookup ((m.record_packet r l1 b1).record_packet r l2 b2).window_download_bytes
        (r, m.get_interface_for_ip l1) = some (b1 + b2) ∧
      ((m.record_packet r l1 b1).record_packet r l2 b2).publish_bytes_and_reset.download_bytes_gauge
        (r, m.get_interface_for_ip l1) = (b1 + b2 : Int)) ∧
    (assocLookup ((m.record_packet l1 r b1).record_packet l2 r b2).window_upload_bytes
        (r, m.get_interface_for_ip l1) = some (b1 + b2) ∧
      ((m.record_packet l1 r b1).record_packet l2 r b2).publish_bytes_and_reset.upload_bytes_gauge
        (r, m.get_interface_for_ip l1) = (b1 + b2 : Int)) := by
  have hlt64 : b1 + b2 < 2 ^ 64 := lt_trans hlt (by norm_num)
  have hi64 : i64ofU64 (b1 + b2) = (b1 + b2 : Int) := by
    unfold i64ofU64
    rw [if_pos hlt]
    push_cast
    ring
  constructor
  · -- download direction
    have hr1 : (m.record_packet r l1 b1).is_local_ip r = false := by
      rw [is_local_ip_record]; exact hr
    have h21 : (m.record_packet r l1 b1).is_local_ip l2 = true := by
      rw [is_local_ip_record]; exact h2
    have hif1 : (m.record_packet r l1 b1).get_interface_for_ip l2 =
        m.get_interface_for_ip l1 := by
      rw [get_interface_for_ip_record]; exact hif.symm
    have w1 : (m.record_packet r l1 b1).window_download_bytes =
        m.window_download_bytes ++ [((r, m.get_interface_for_ip l1), b1)] := by
      rw [record_packet_download m r l1 b1 hr h1]
      show upsertAdd m.window_download_bytes (r, m.get_interface_for_ip l1) b1 = _
      exact upsertAdd_of_notMem _ _ _ hdn
    have w2 : ((m.record_packet r l1 b1).record_packet r l2 b2).window_download_bytes =
        m.window_download_bytes ++ [((r, m.get_interface_for_ip l1), b1 + b2)] := by
      rw [record_packet_download _ r l2 b2 hr1 h21]
      show upsertAdd (m.record_packet r l1 b1).window_download_bytes
        (r, (m.record_packet r l1 b1).get_interface_for_ip l2) b2 = _
      rw [hif1, w1, upsertAdd_append _ _ _ _ hdn, Nat.mod_eq_of_lt hlt64]
    constructor
    · rw [w2, assocLookup_append _ _ _ hdn]
      simp [assocLookup]
    · rw [(publish_gauges_eq _).1]
      have hcur : (r, m.get_interface_for_ip l1) ∈
          ((m.record_packet r l1 b1).record_packet r l2 b2).window_download_bytes.map
            Prod.fst := by
        rw [w2]; simp
      rw [zeroSilent_foldl_fst_mem _ _ _ _ _ hcur]
      show set_window_gauges _ _ _ = _
      rw [set_window_gauges_eq, w2, assocLookupLast_append_last]
      exact hi64
  · -- upload direction
    have hr1 : (m.record_packet l1 r b1).is_local_ip r = false := by
      rw [is_local_ip_record]; exact hr
    have h21 : (m.record_packet l1 r b1).is_local_ip l2 = true := by
      rw [is_local_ip_record]; exact h2
    have hif1 : (m.record_packet l1 r b1).get_interface_for_ip l2 =
        m.get_interface_for_ip l1 := by
      rw [get_interface_for_ip_record]; exact hif.symm
    have w1 : (m.record_packet l1 r b1).window_upload_bytes =
        m.window_upload_bytes ++ [((r, m.get_interface_for_ip l1), b1)] := by
      rw [record_packet_upload m l1 r b1 h1 hr]
      show upsertAdd m.window_upload_bytes (r, m.get_interface_for_ip l1) b1 = _
      exact upsertAdd_of_notMem _ _ _ hun
    have w2 : ((m.record_packet l1 r b1).record_packet l2 r b2).window_upload_bytes =
        m.window_upload_bytes ++ [((r, m.get_interface_for_ip l1), b1 + b2)] := by
      rw [record_packet_upload _ l2 r b2 h21 hr1]
      show upsertAdd (m.record_packet l1 r b1).window_upload_bytes
        (r, (m.record_packet l1 r b1).get_interface_for_ip l2) b2 = _
      rw [hif1, w1, upsertAdd_append _ _ _ _ hun, Nat.mod_eq_of_lt hlt64]
    constructor
    · rw [w2, assocLookup_append _ _ _ hun]
      simp [assocLookup]
    · rw [(publish_gauges_eq _).2]
      have hcur : (r, m.get_interface_for_ip l1) ∈
          ((m.record_packet l1 r b1).record_packet l2 r b2).window_upload_bytes.map
            Prod.fst := by
        rw [w2]; simp
      rw [zeroSilent_foldl_snd_mem _ _ _ _ _ hcur]
      show set_window_gauges _ _ _ = _
      rw [set_window_gauges_eq, w2, assocLookupLast_append_last]
      exact hi64

/-- Witness for C4: two download frames of 100 and 150 bytes from
93.184.216.34 to the local addresses 10.0.0.5 and 10.0.0.6 accumulate to 250
and the next publish reports 250. -/
theorem same_window_sum_witness :
    sample0.is_local_ip "93.184.216.34" = false ∧
    sample0.is_local_ip "10.0.0.5" = true ∧
    sample0.is_local_ip "10.0.0.6" = true ∧
    sample0.get_interface_for_ip "10.0.0.5" = sample0.get_interface_for_ip "10.0.0.6" ∧
    100 + 150 < 2 ^ 63 ∧
    assocLookup ((sample0.record_packet "93.184.216.34" "10.0.0.5" 100).record_packet
        "93.184.216.34" "10.0.0.6" 150).window_download_bytes
      ("93.184.216.34", sample0.get_interface_for_ip "10.0.0.5") = some 250 ∧
    ((sample0.record_packet "93.184.216.34" "10.0.0.5" 100).record_packet
        "93.184.216.34" "10.0.0.6" 150).publish_bytes_and_reset.download_bytes_gauge
      ("93.184.216.34", sample0.get_interface_for_ip "10.0.0.5") = 250 := by
  have h := same_window_sum sample0 "93.184.216.34" "10.0.0.5" "10.0.0.6" 100 150
    (by decide) (by decide) (by decide) (by decide) (by decide) (by decide) (by decide)
  refine ⟨by decide, by decide, by decide, by decide, by decide, ?_, ?_⟩
  · simpa using h.1.1
  · simpa using h.1.2

/-- C5: after a publish both windows are empty, so every counter reads zero;
a single frame of length L recorded next yields exactly L in the gauge at the
following publish, in either direction. -/
theorem reset_then_single_frame (m : TrafficMetrics) (r l : String) (L : Nat)
    (hr : m.is_local_ip r = false) (hl : m.is_local_ip l = true)
    (hL : L < 2 ^ 63) :
    (∀ k, assocLookup m.publish_bytes_and_reset.window_download_bytes k = none ∧
          assocLookup m.publish_bytes_and_reset.window_upload_bytes k = none) ∧
    (m.publish_bytes_and_reset.record_packet r l
        L).publish_bytes_and_reset.download_bytes_gauge
      (r, m.get_interface_for_ip l) = (L : Int) ∧
    (m.publish_bytes_and_reset.record_packet l r
        L).publish_bytes_and_reset.upload_bytes_gauge
      (r, m.get_interface_for_ip l) = (L : Int) := by
  have hi64 : i64ofU64 L = (L : Int) := by
    unfold i64ofU64
    rw [if_pos hL]
  refine ⟨fun k => ⟨rfl, rfl⟩, ?_, ?_⟩
  · have hr1 : m.publish_bytes_and_reset.is_local_ip r = false := by
      rw [is_local_ip_publish]; exact hr
    have hl1 : m.publish_bytes_and_reset.is_local_ip l = true := by
      rw [is_local_ip_publish]; exact hl
    have w2 : (m.publish_bytes_and_reset.record_packet r l L).window_download_bytes =
        [((r, m.get_interface_for_ip l), L)] := by
      rw [record_packet_download _ r l L hr1 hl1]
      show upsertAdd m.publish_bytes_and_reset.window_download_bytes
        (r, m.publish_bytes_and_reset.get_interface_for_ip l) L = _
      rw [get_interface_for_ip_publish]
      rfl
    rw [(publish_gauges_eq _).1]
    have hcur : (r, m.get_interface_for_ip l) ∈
        (m.publish_bytes_and_reset.record_packet r l
          L).window_download_bytes.map Prod.fst := by
      rw [w2]; simp
    rw [zeroSilent_foldl_fst_mem _ _ _ _ _ hcur]
    show set_window_gauges _ _ _ = _
    rw [set_window_gauges_eq, w2]
    simp [assocLookupLast, hi64]
  · have hr1 : m.publish_bytes_and_reset.is_local_ip r = false := by
      rw [is_local_ip_publish]; exact hr
    have hl1 : m.publish_bytes_and_reset.is_local_ip l = true := by
      rw [is_local_ip_publish]; exact hl
    have w2 : (m.publish_bytes_and_reset.record_packet l r L).window_upload_bytes =
        [((r, m.get_interface_for_ip l), L)] := by
      rw [record_packet_upload _ l r L hl1 hr1]
      show upsertAdd m.publish_bytes_and_reset.window_upload_bytes
        (r, m.publish_bytes_and_reset.get_interface_for_ip l) L = _
      rw [get_interface_for_ip_publish]
      rfl
    rw [(publish_gauges_eq _).2]
    have hcur : (r, m.get_interface_for_ip l) ∈
        (m.publish_bytes_and_reset.record_packet l r
          L).window_upload_bytes.map Prod.fst := by
      rw [w2]; simp
    rw [zeroSilent_foldl_snd_mem _ _ _ _ _ hcur]
    show set_window_gauges _ _ _ = _
    rw [set_window_gauges_eq, w2]
    simp [assocLookupLast, hi64]

/-- Witness for C5: after a publish of sample0, one 75-byte download frame
from 93.184.216.34 to 10.0.0.5 makes the next publish report exactly 75. -/
theorem reset_then_single_frame_witness :
    sample0.is_local_ip "93.184.216.34" = false ∧
    sample0.is_local_ip "10.0.0.5" = true ∧
    75 < 2 ^ 63 ∧
    (sample0.publish_bytes_and_reset.record_packet "93.184.216.34" "10.0.0.5"
        75).publish_bytes_and_reset.download_bytes_gauge
      ("93.184.216.34", sample0.get_interface_for_ip "10.0.0.5") = 75 := by
  have h := reset_then_single_frame sample0 "93.184.216.34" "10.0.0.5" 75
    (by decide) (by decide) (by decide)
  exact ⟨by decide, by decide, by decide, h.2.1⟩

/-- C7: a key present in known_metrics survives every record_packet and every
publish_bytes_and_reset, and a publish at which the key is silent in both
windows sets both of its gauges to 0 explicitly. -/
theorem known_key_zero_decay (m : TrafficMetrics) (k : Key) (s d : String)
    (b : Nat) (hk : k ∈ m.known_metrics) :
    k ∈ (m.record_packet s d b).known_metrics ∧
    m.publish_bytes_and_reset.known_metrics = m.known_metrics ∧
    (k ∉ m.window_download_bytes.map Prod.fst →
      k ∉ m.window_upload_bytes.map Prod.fst →
      m.publish_bytes_and_reset.download_bytes_gauge k = 0 ∧
      m.publish_bytes_and_reset.upload_bytes_gauge k = 0) := by
  refine ⟨record_packet_known_mono m s d b k hk, publish_known m,
    fun hdk huk => ⟨?_, ?_⟩⟩
  · rw [(publish_gauges_eq m).1]
    exact zeroSilent_foldl_fst_zero _ _ _ _ _ hk hdk
  · rw [(publish_gauges_eq m).2]
    exact zeroSilent_foldl_snd_zero _ _ _ _ _ hk huk

/-- Witness for C7: after the frame of sample2 and one publish, the key
(93.184.216.34, unknown) is known and silent, and the next publish writes an
explicit 0 to both of its gauges. -/
theorem known_key_zero_decay_witness :
    ("93.184.216.34", "unknown") ∈ sample2.publish_bytes_and_reset.known_metrics ∧
    ("93.184.216.34", "unknown") ∉
      sample2.publish_bytes_and_reset.window_download_bytes.map Prod.fst ∧
    sample2.publish_bytes_and_reset.publish_bytes_and_reset.download_bytes_gauge
      ("93.184.216.34", "unknown") = 0 ∧
    sample2.publish_bytes_and_reset.publish_bytes_and_reset.upload_bytes_gauge
      ("93.184.216.34", "unknown") = 0 := by
  have h := known_key_zero_decay sample2.publish_bytes_and_reset
    ("93.184.216.34", "unknown") "10.0.0.9" "10.0.0.8" 7 (by decide)
  exact ⟨by decide, by decide, (h.2.2 (by decide) (by decide)).1,
    (h.2.2 (by decide) (by decide)).2⟩

/-- C1: the claim fails on the code.  publish_bytes_and_reset reads the
windows and clears them in two separate traversals with no lock across them,
so a record_packet that lands between the read and the clear is wiped without
ever being reported.  In lostTrace the key (93.184.216.34, unknown) receives
100 + 50 = 150 bytes (first conjunct: the window holds 150 before the clear),
yet the published windows total only 100 and the final window holds nothing,
so 50 bytes are lost. -/
theorem publish_race_loses_bytes :
    assocLookup (runTrace ⟨sample0, []⟩ (lostTrace.take 3)).tm.window_download_bytes
        ("93.184.216.34", "unknown") = some (100 + 50) ∧
    reportedDownload (runTrace ⟨sample0, []⟩ lostTrace) ("93.184.216.34", "unknown") =
      100 ∧
    assocLookup (runTrace ⟨sample0, []⟩ lostTrace).tm.window_download_bytes
        ("93.184.216.34", "unknown") = none ∧
    100 + 50 ≠ 100 :=
  ⟨by decide, by decide, by decide, by decide⟩
